import Mathlib

/-
Verification of the Virtio-blk frontend of the opi-spdk-bridge
(pkg/frontend/blk.go) against its natural-language specification.

The Go server state is embedded with value semantics: the maps
`s.Virt.BlkCtrls : map[string]*pb.VirtioBlk` and
`s.Pagination : map[string]int` become association lists, the SPDK
JSON-RPC gateway (`s.rpc.Call`) becomes an explicit outcome parameter
(the reply the engine would give to the single call the handler makes),
and the list of engine method names actually invoked is returned
alongside the result so that "no engine call is made" is provable.
For the one claim about pointer aliasing a second, heap-explicit
embedding of CreateVirtioBlk is given further below.
-/

namespace OpiSpdkBridge

/-- Lookup in a Go-style map embedded as an association list. -/
def mapLookup {κ α : Type} [DecidableEq κ] : List (κ × α) → κ → Option α
  | [], _ => none
  | (k', v) :: rest, k => if k' = k then some v else mapLookup rest k

/-- Insertion (Go map assignment `m[k] = v`): overwrite if present, append otherwise. -/
def mapInsert {κ α : Type} [DecidableEq κ] : List (κ × α) → κ → α → List (κ × α)
  | [], k, v => [(k, v)]
  | (k', v') :: rest, k, v =>
      if k' = k then (k, v) :: rest else (k', v') :: mapInsert rest k v

/-- Removal (Go `delete(m, k)`). -/
def mapRemove {κ α : Type} [DecidableEq κ] : List (κ × α) → κ → List (κ × α)
  | [], _ => []
  | (k', v') :: rest, k =>
      if k' = k then mapRemove rest k else (k', v') :: mapRemove rest k

/-- Embeds pc.ObjectKey (field Value). -/
structure ObjectKey where
  value : String
deriving DecidableEq, Repr, Inhabited

/-- Embeds pb.PciEndpoint (fields PhysicalFunction, VirtualFunction). -/
structure PciEndpoint where
  physicalFunction : Int
  virtualFunction : Int
deriving DecidableEq, Repr, Inhabited

/-- Embeds pb.VirtioBlk: the fields blk.go reads or constructs (Id, PcieId, VolumeId). -/
structure VirtioBlk where
  id : ObjectKey
  pcieId : PciEndpoint
  volumeId : ObjectKey
deriving DecidableEq, Repr, Inhabited

/-- Embeds spdk.VhostGetControllersResult; blk.go only reads the Ctrlr field. -/
structure VhostGetControllersResult where
  ctrlr : String
deriving DecidableEq, Repr, Inhabited

/-- The server state blk.go touches: s.Virt.BlkCtrls and s.Pagination. -/
structure ServerState where
  blkCtrls : List (String × VirtioBlk)
  pagination : List (String × Nat)
deriving DecidableEq, Repr

/-- Outcome of a single s.rpc.Call: err covers transport/protocol/decode failures
(rpc.Call returned a non-nil error); ok carries the decoded result payload. -/
inductive RpcOutcome (α : Type) where
  | err : RpcOutcome α
  | ok (result : α) : RpcOutcome α
deriving DecidableEq, Repr

/-- gRPC status codes used by blk.go. -/
inductive GrpcCode where
  | ok
  | invalidArgument
  | notFound
  | internal
  | unknown
  | unimplemented
deriving DecidableEq, Repr

/-- Errors a blk.go handler can return to its caller. -/
inductive OpError where
  | grpcStatus (code : GrpcCode) (msg : String)
  | failedSpdkCall
  | unexpectedSpdkCallResult
  | rpcError
deriving DecidableEq, Repr

/-- CreateVirtioBlk (blk.go lines 26-59). If the id is already in BlkCtrls the stored
controller is returned with no engine call. Otherwise vhost_create_blk_controller is
invoked; a transport error yields ErrFailedSpdkCall, a false result yields
ErrUnexpectedSpdkCallResult, and on true the request object is stored under its id and
a deep copy of it is returned (deepcopier.Copy into a fresh struct is value copying of
these plain structs, so its error branch cannot fire and the copy is the value itself).
The third component lists the engine methods invoked. -/
def createVirtioBlk (s : ServerState) (inBlk : VirtioBlk) (engine : RpcOutcome Bool) :
    ServerState × Except OpError VirtioBlk × List String :=
  match mapLookup s.blkCtrls inBlk.id.value with
  | some controller => (s, Except.ok controller, [])
  | none =>
    match engine with
    | RpcOutcome.err =>
        (s, Except.error OpError.failedSpdkCall, ["vhost_create_blk_controller"])
    | RpcOutcome.ok result =>
        if result then
          ({ s with blkCtrls := mapInsert s.blkCtrls inBlk.id.value inBlk },
           Except.ok inBlk, ["vhost_create_blk_controller"])
        else
          (s, Except.error OpError.unexpectedSpdkCallResult,
           ["vhost_create_blk_controller"])

/-- DeleteVirtioBlk (blk.go lines 62-88). Absent id: AllowMissing yields an empty
success, otherwise NotFound naming the key. Present id: vhost_delete_controller is
invoked; a transport error is returned verbatim with the registry untouched; any
decoded reply (true or false, false being only logged) leads to removal of the entry
keyed by the stored controller's Id.Value and an empty success. -/
def deleteVirtioBlk (s : ServerState) (name : String) (allowMissing : Bool)
    (engine : RpcOutcome Bool) :
    ServerState × Except OpError Unit × List String :=
  match mapLookup s.blkCtrls name with
  | none =>
      if allowMissing then
        (s, Except.ok (), [])
      else
        (s, Except.error (OpError.grpcStatus GrpcCode.notFound
          ("unable to find key " ++ name)), [])
  | some controller =>
    match engine with
    | RpcOutcome.err => (s, Except.error OpError.rpcError, ["vhost_delete_controller"])
    | RpcOutcome.ok _result =>
        ({ s with blkCtrls := mapRemove s.blkCtrls controller.id.value },
         Except.ok (), ["vhost_delete_controller"])

/-- Module-wide default page size used when the request carries PageSize zero. -/
def defaultPageSize : Nat := 50

/-- Modelled from the spec: `ExtractPagination` of pkg/server, whose implementation is
not under src (only its caller and its error-message expectations in the tests are).
Per the spec, a negative page size fails InvalidArgument with message
"negative PageSize is not allowed" before anything else; size is the requested page
size or a module-wide default if zero; offset is 0 for an empty token, the stored
offset for a known token, and an unknown token fails NotFound naming the token. -/
def extractPagination (pageSize : Int) (pageToken : String)
    (pagination : List (String × Nat)) : Except OpError (Nat × Nat) :=
  if pageSize < 0 then
    Except.error (OpError.grpcStatus GrpcCode.invalidArgument
      "negative PageSize is not allowed")
  else
    let size : Nat := if pageSize = 0 then defaultPageSize else pageSize.toNat
    if pageToken = "" then
      Except.ok (size, 0)
    else
      match mapLookup pagination pageToken with
      | some offset => Except.ok (size, offset)
      | none => Except.error (OpError.grpcStatus GrpcCode.notFound
          ("unable to find pagination token " ++ pageToken))

/-- Modelled from the spec: `LimitPagination` of pkg/server, whose implementation is
not under src. Per the spec it slices the collection to the window
[offset : offset+size] and reports whether elements remain beyond the slice. -/
def limitPagination {α : Type} (result : List α) (offset size : Nat) :
    List α × Bool :=
  ((result.drop offset).take size, offset + size < result.length)

/-- The shaping blk.go applies to one engine record (lines 121-124 and 153-156):
Id from the record's Ctrlr, PcieId with PhysicalFunction 1 (VirtualFunction left at
its zero value), VolumeId the literal "TBD". -/
def blkFromCtrlr (r : VhostGetControllersResult) : VirtioBlk :=
  { id := { value := r.ctrlr },
    pcieId := { physicalFunction := 1, virtualFunction := 0 },
    volumeId := { value := "TBD" } }

/-- ListVirtioBlks (blk.go lines 97-127). Pagination parameters are extracted first
and an extraction error returns before any engine call. Then vhost_get_controllers is
queried once; a transport error is returned verbatim. The reply is sliced to
[offset : offset+size]; when elements remain beyond the slice a freshly generated
token (uuid.New().String(), passed here as the parameter newToken) is mapped to
offset+size in s.Pagination and returned as NextPageToken, otherwise the token is
empty and the map is untouched. Each sliced record is shaped by blkFromCtrlr. -/
def listVirtioBlks (s : ServerState) (pageSize : Int) (pageToken : String)
    (engine : RpcOutcome (List VhostGetControllersResult)) (newToken : String) :
    ServerState × Except OpError (List VirtioBlk × String) × List String :=
  match extractPagination pageSize pageToken s.pagination with
  | Except.error perr => (s, Except.error perr, [])
  | Except.ok (size, offset) =>
    match engine with
    | RpcOutcome.err => (s, Except.error OpError.rpcError, ["vhost_get_controllers"])
    | RpcOutcome.ok result =>
      let limited := limitPagination result offset size
      let token := if limited.2 then newToken else ""
      let s' :=
        if limited.2 then
          { s with pagination := mapInsert s.pagination newToken (offset + size) }
        else s
      (s', Except.ok (limited.1.map blkFromCtrlr, token), ["vhost_get_controllers"])

/-- GetVirtioBlk (blk.go lines 130-157). An id absent from BlkCtrls fails
InvalidArgument with message "Could not find Controller: <name>" and no engine call.
Otherwise vhost_get_controllers is queried with the name; a transport error is
returned verbatim; a reply with other than exactly one record fails InvalidArgument
naming the count; the single record is shaped by blkFromCtrlr. -/
def getVirtioBlk (s : ServerState) (name : String)
    (engine : RpcOutcome (List VhostGetControllersResult)) :
    Except OpError VirtioBlk × List String :=
  match mapLookup s.blkCtrls name with
  | none =>
      (Except.error (OpError.grpcStatus GrpcCode.invalidArgument
        ("Could not find Controller: " ++ name)), [])
  | some _ =>
    match engine with
    | RpcOutcome.err => (Except.error OpError.rpcError, ["vhost_get_controllers"])
    | RpcOutcome.ok result =>
        if result.length = 1 then
          (Except.ok (blkFromCtrlr result.headI), ["vhost_get_controllers"])
        else
          (Except.error (OpError.grpcStatus GrpcCode.invalidArgument
            ("expecting exactly 1 result, got " ++ toString result.length)),
           ["vhost_get_controllers"])

/-
Aliasing-explicit embedding of CreateVirtioBlk, for the claim about which memory
ends up in the registry. Pointers are heap addresses (Nat); the heap maps addresses
to VirtioBlk values and allocates at a bump counter. The registry holds addresses,
exactly as the Go map map[string]*pb.VirtioBlk holds pointers.
-/

/-- A bump-allocator heap of VirtioBlk objects. -/
structure Heap where
  mem : List (Nat × VirtioBlk)
  next : Nat
deriving DecidableEq, Repr

/-- Allocation of a fresh object holding value v. -/
def heapAlloc (h : Heap) (v : VirtioBlk) : Heap × Nat :=
  ({ mem := mapInsert h.mem h.next v, next := h.next + 1 }, h.next)

/-- Server state with the registry holding pointers, as the Go map does. -/
structure PtrServerState where
  heap : Heap
  blkCtrls : List (String × Nat)
deriving DecidableEq, Repr

/-- CreateVirtioBlk with pointer semantics made explicit (blk.go lines 26-59):
the request carries the address inPtr of the caller-visible pb.VirtioBlk.
Line 50, s.Virt.BlkCtrls[id] = in.VirtioBlk, stores that address itself in the
registry; lines 52-53 allocate a fresh response object and deep-copy the request
value into it, and line 58 returns the fresh address. A dangling request address
gives none (a nil-dereference, impossible for real decoded requests). -/
def createVirtioBlkRef (s : PtrServerState) (inPtr : Nat) (engine : RpcOutcome Bool) :
    Option (PtrServerState × Except OpError Nat) :=
  match mapLookup s.heap.mem inPtr with
  | none => none
  | some inBlk =>
    match mapLookup s.blkCtrls inBlk.id.value with
    | some ctrlPtr => some (s, Except.ok ctrlPtr)
    | none =>
      match engine with
      | RpcOutcome.err => some (s, Except.error OpError.failedSpdkCall)
      | RpcOutcome.ok result =>
          if result then
            let s1 : PtrServerState :=
              { s with blkCtrls := mapInsert s.blkCtrls inBlk.id.value inPtr }
            let alloc := heapAlloc s1.heap inBlk
            some ({ s1 with heap := alloc.1 }, Except.ok alloc.2)
          else
            some (s, Except.error OpError.unexpectedSpdkCallResult)

/-
Listener address resolver. NewTCPSubsystemListener's implementation is not under
src (only its test TestFrontEnd_NewTcpSubsystemListener is), so it is modelled
from the spec.
-/

/-- Transport tag of a resolved TCP listener. -/
inductive NvmeTCPProtocol where
  | ipv4
  | ipv6
deriving DecidableEq, Repr

/-- A parsed IP address: four octets or eight 16-bit groups. -/
inductive IpAddr where
  | v4 (octets : List Nat)
  | v6 (groups : List Nat)
deriving DecidableEq, Repr

/-- The resolved listener descriptor (tcpSubsystemListener in the test). -/
structure TcpSubsystemListener where
  listenAddr : IpAddr
  listenPort : String
  protocol : NvmeTCPProtocol
deriving DecidableEq, Repr

/-- Split a character list at every occurrence of a one-character separator,
with the semantics of String.splitOn: the empty input gives one empty part. -/
def splitOnChar (sep : Char) : List Char → List (List Char)
  | [] => [[]]
  | c :: rest =>
    match splitOnChar sep rest with
    | [] => [[]]
    | grp :: grps => if c = sep then [] :: grp :: grps else (c :: grp) :: grps

/-- Split a character list at every occurrence of a two-character separator. -/
def splitOnPair (c1 c2 : Char) : List Char → List (List Char)
  | [] => [[]]
  | [c] => [[c]]
  | c :: c' :: rest =>
    if c = c1 ∧ c' = c2 then
      [] :: splitOnPair c1 c2 rest
    else
      match splitOnPair c1 c2 (c' :: rest) with
      | [] => [[]]
      | grp :: grps => (c :: grp) :: grps

/-- Modelled from the spec: the split of an endpoint string into host and port
done by the listener address resolver (net.SplitHostPort). A bracketed host is
the text inside the brackets, followed by a colon and the port; otherwise the
string must be exactly host, one colon, port. Anything else, the empty string
and a portless host included, is structurally invalid. -/
def splitHostPort (s : String) : Option (String × String) :=
  match s.data with
  | [] => none
  | c :: rest =>
    if c = '[' then
      match splitOnPair ']' ':' rest with
      | [host, port] => some (⟨host⟩, ⟨port⟩)
      | _ => none
    else
      match splitOnChar ':' (c :: rest) with
      | [host, port] => some (⟨host⟩, ⟨port⟩)
      | _ => none

/-- Value of one decimal digit. -/
def decDigitVal (c : Char) : Option Nat :=
  if c.isDigit then some (c.toNat - 48) else none

/-- Value of one hexadecimal digit. -/
def hexDigitVal (c : Char) : Option Nat :=
  if c.isDigit then some (c.toNat - 48)
  else if 'a' ≤ c ∧ c ≤ 'f' then some (c.toNat - 87)
  else if 'A' ≤ c ∧ c ≤ 'F' then some (c.toNat - 55)
  else none

/-- Value of a digit string in the given base, none on any non-digit. -/
def digitsVal (base : Nat) (digitVal : Char → Option Nat) (l : List Char) : Option Nat :=
  l.foldl
    (fun acc c =>
      match acc, digitVal c with
      | some a, some d => some (a * base + d)
      | _, _ => none)
    (some 0)

/-- One dotted-decimal IPv4 octet: 1-3 decimal digits, value at most 255. -/
def parseIPv4Octet (l : List Char) : Option Nat :=
  if l.length = 0 ∨ 3 < l.length then none
  else
    match digitsVal 10 decDigitVal l with
    | some n => if n ≤ 255 then some n else none
    | none => none

/-- Modelled from the spec: the IPv4 parse attempted by the resolver
(net.ParseIP on a dotted-decimal string): four dot-separated octets. -/
def parseIPv4 (host : String) : Option (List Nat) :=
  let parts := splitOnChar '.' host.data
  if parts.length = 4 then
    let octets := parts.filterMap parseIPv4Octet
    if octets.length = 4 then some octets else none
  else none

/-- One IPv6 group: 1-4 hexadecimal digits. -/
def parseHexGroup (l : List Char) : Option Nat :=
  if l.length = 0 ∨ 4 < l.length then none
  else digitsVal 16 hexDigitVal l

/-- Colon-separated hexadecimal groups; the empty list is no group at all. -/
def parseGroups (l : List Char) : Option (List Nat) :=
  match l with
  | [] => some []
  | _ :: _ =>
    let parts := splitOnChar ':' l
    let groups := parts.filterMap parseHexGroup
    if groups.length = parts.length then some groups else none

/-- Modelled from the spec: the IPv6 parse attempted by the resolver after the
IPv4 parse fails (net.ParseIP on a colon-hexadecimal string): eight groups, or
at most seven around a single double-colon that expands to the missing zero
groups. -/
def parseIPv6 (host : String) : Option (List Nat) :=
  match splitOnPair ':' ':' host.data with
  | [whole] =>
    match parseGroups whole with
    | some gs => if gs.length = 8 then some gs else none
    | none => none
  | [left, right] =>
    match parseGroups left, parseGroups right with
    | some ls, some rs =>
        if ls.length + rs.length ≤ 7 then
          some (ls ++ List.replicate (8 - ls.length - rs.length) 0 ++ rs)
        else none
    | _, _ => none
  | _ => none

/-- Modelled from the spec: `NewTCPSubsystemListener`, whose implementation is not
under src (only its test is). Per the spec it splits host:port, attempts an IPv4
parse and then an IPv6 parse of the host, tags the descriptor accordingly, and on
any structurally invalid input (missing port, unparseable host, empty string) it
terminates the operation (a panic), modelled here as none. -/
def newTCPSubsystemListener (listenAddr : String) : Option TcpSubsystemListener :=
  match splitHostPort listenAddr with
  | none => none
  | some (host, port) =>
    match parseIPv4 host with
    | some octets =>
        some { listenAddr := IpAddr.v4 octets, listenPort := port,
               protocol := NvmeTCPProtocol.ipv4 }
    | none =>
      match parseIPv6 host with
      | some groups =>
          some { listenAddr := IpAddr.v6 groups, listenPort := port,
                 protocol := NvmeTCPProtocol.ipv6 }
      | none => none

/-
Lemmas about the embedded Go maps.
-/

theorem mapLookup_insert_self {κ α : Type} [DecidableEq κ]
    (m : List (κ × α)) (k : κ) (v : α) :
    mapLookup (mapInsert m k v) k = some v := by
  induction m with
  | nil => simp [mapInsert, mapLookup]
  | cons hd tl ih =>
    obtain ⟨k', v'⟩ := hd
    by_cases h : k' = k <;> simp [mapInsert, mapLookup, h, ih]

theorem mapLookup_remove_self {κ α : Type} [DecidableEq κ]
    (m : List (κ × α)) (k : κ) :
    mapLookup (mapRemove m k) k = none := by
  induction m with
  | nil => simp [mapRemove, mapLookup]
  | cons hd tl ih =>
    obtain ⟨k', v'⟩ := hd
    by_cases h : k' = k <;> simp [mapRemove, mapLookup, h, ih]

theorem mapLookup_mem {κ α : Type} [DecidableEq κ]
    {m : List (κ × α)} {k : κ} {v : α} (h : mapLookup m k = some v) :
    (k, v) ∈ m := by
  induction m with
  | nil => simp [mapLookup] at h
  | cons hd tl ih =>
    obtain ⟨k', v'⟩ := hd
    by_cases hk : k' = k
    · subst hk
      simp [mapLookup] at h
      simp [h]
    · simp [mapLookup, hk] at h
      exact List.mem_cons_of_mem _ (ih h)

/-
Claims.
-/

/-- Claim C1: CreateVirtioBlk is fully idempotent on the resource identifier.
First conjunct: in every registry state holding an entry for the requested id,
Create returns that stored object unchanged, leaves the state unchanged, and
issues no engine call, whatever spec was supplied. Second conjunct: two Creates
in sequence with the same request that both succeed return the same object,
which is exactly the stored registry entry afterwards, and together issue at
most one engine create call. -/
theorem createVirtioBlk_idempotent (s : ServerState) (inBlk c : VirtioBlk)
    (e1 e2 : RpcOutcome Bool)
    (hex : mapLookup s.blkCtrls inBlk.id.value = some c) :
    createVirtioBlk s inBlk e1 = (s, Except.ok c, []) ∧
    (∀ s0 : ServerState, ∀ v1 v2 : VirtioBlk,
      (createVirtioBlk s0 inBlk e1).2.1 = Except.ok v1 →
      (createVirtioBlk (createVirtioBlk s0 inBlk e1).1 inBlk e2).2.1 = Except.ok v2 →
      v1 = v2 ∧
      mapLookup (createVirtioBlk (createVirtioBlk s0 inBlk e1).1 inBlk e2).1.blkCtrls
        inBlk.id.value = some v2 ∧
      (createVirtioBlk s0 inBlk e1).2.2.length +
        (createVirtioBlk (createVirtioBlk s0 inBlk e1).1 inBlk e2).2.2.length ≤ 1) := by
  constructor
  · simp [createVirtioBlk, hex]
  · intro s0 v1 v2 h1 h2
    rcases h0 : mapLookup s0.blkCtrls inBlk.id.value with _ | c0
    · cases e1 with
      | err => simp [createVirtioBlk, h0] at h1
      | ok b1 =>
        cases b1 with
        | false => simp [createVirtioBlk, h0] at h1
        | true =>
          have hstored := mapLookup_insert_self s0.blkCtrls inBlk.id.value inBlk
          simp [createVirtioBlk, h0, hstored] at h1 h2 ⊢
          subst h1
          subst h2
          simp
    · simp [createVirtioBlk, h0] at h1 h2 ⊢
      subst h1
      subst h2
      simp [h0]

/-- Claim C1 witness: a registry holding id blk-w, Create returns the stored
entry with no engine call; a fresh registry, two successful Creates agree. -/
theorem createVirtioBlk_idempotent_witness :
    (createVirtioBlk
        { blkCtrls := [("blk-w", { id := { value := "blk-w" },
                                   pcieId := { physicalFunction := 1, virtualFunction := 0 },
                                   volumeId := { value := "Malloc9" } })],
          pagination := [] }
        { id := { value := "blk-w" },
          pcieId := { physicalFunction := 3, virtualFunction := 4 },
          volumeId := { value := "Other" } }
        (RpcOutcome.ok true) =
      ({ blkCtrls := [("blk-w", { id := { value := "blk-w" },
                                  pcieId := { physicalFunction := 1, virtualFunction := 0 },
                                  volumeId := { value := "Malloc9" } })],
         pagination := [] },
       Except.ok { id := { value := "blk-w" },
                   pcieId := { physicalFunction := 1, virtualFunction := 0 },
                   volumeId := { value := "Malloc9" } }, [])) := by
  exact (createVirtioBlk_idempotent
    { blkCtrls := [("blk-w", { id := { value := "blk-w" },
                               pcieId := { physicalFunction := 1, virtualFunction := 0 },
                               volumeId := { value := "Malloc9" } })],
      pagination := [] }
    { id := { value := "blk-w" },
      pcieId := { physicalFunction := 3, virtualFunction := 4 },
      volumeId := { value := "Other" } }
    { id := { value := "blk-w" },
      pcieId := { physicalFunction := 1, virtualFunction := 0 },
      volumeId := { value := "Malloc9" } }
    (RpcOutcome.ok true) (RpcOutcome.ok true) (by decide)).1

/-- A concrete VirtioBlk value used to exercise the pointer-level embedding. -/
def blkA : VirtioBlk :=
  { id := { value := "blk-a" },
    pcieId := { physicalFunction := 1, virtualFunction := 0 },
    volumeId := { value := "Malloc0" } }

/-- Claim C2 counterexample: in a heap holding the caller's request object at
address 0 and an empty registry, a successful Create stores address 0 itself --
the very memory the caller passed in -- as the registry entry, contradicting
that a deep copy is stored and that the stored entry is never the caller's
memory. -/
theorem createVirtioBlkRef_stores_caller_memory :
    (createVirtioBlkRef
        { heap := { mem := [(0, blkA)], next := 1 }, blkCtrls := [] }
        0 (RpcOutcome.ok true)).map
      (fun out => mapLookup out.1.blkCtrls "blk-a") = some (some 0) := by
  decide

/-- Claim C2 amended: on a successful Create the caller's object itself (the
same memory) is what the Registry stores; the value returned to the caller is a
fresh allocation holding a deep copy, value-equal to the input and distinct
from the caller's memory. Hypotheses: the request address is live in the heap,
the id is absent from the registry, and the heap allocator invariant (every
live address is below the bump pointer) holds. -/
theorem createVirtioBlkRef_copy_semantics (s : PtrServerState) (inPtr : Nat)
    (inBlk : VirtioBlk)
    (hvalid : ∀ p ∈ s.heap.mem, p.1 < s.heap.next)
    (hmem : mapLookup s.heap.mem inPtr = some inBlk)
    (habs : mapLookup s.blkCtrls inBlk.id.value = none) :
    ∃ s1 : PtrServerState, ∃ respPtr : Nat,
      createVirtioBlkRef s inPtr (RpcOutcome.ok true) = some (s1, Except.ok respPtr) ∧
      mapLookup s1.blkCtrls inBlk.id.value = some inPtr ∧
      respPtr ≠ inPtr ∧
      mapLookup s1.heap.mem respPtr = some inBlk := by
  refine ⟨{ heap := { mem := mapInsert s.heap.mem s.heap.next inBlk,
                      next := s.heap.next + 1 },
            blkCtrls := mapInsert s.blkCtrls inBlk.id.value inPtr },
          s.heap.next, ?_, ?_, ?_, ?_⟩
  · simp [createVirtioBlkRef, hmem, habs, heapAlloc]
  · exact mapLookup_insert_self s.blkCtrls inBlk.id.value inPtr
  · have hin : (inPtr, inBlk) ∈ s.heap.mem := mapLookup_mem hmem
    have := hvalid _ hin
    omega
  · exact mapLookup_insert_self s.heap.mem s.heap.next inBlk

/-- Claim C2 amended witness: the concrete heap of the counterexample, where
the registry ends up holding address 0 and the response is the fresh address 1
holding an equal value. -/
theorem createVirtioBlkRef_copy_semantics_witness :
    ∃ s1 : PtrServerState, ∃ respPtr : Nat,
      createVirtioBlkRef
          { heap := { mem := [(0, blkA)], next := 1 }, blkCtrls := [] }
          0 (RpcOutcome.ok true) = some (s1, Except.ok respPtr) ∧
      mapLookup s1.blkCtrls blkA.id.value = some 0 ∧
      respPtr ≠ 0 ∧
      mapLookup s1.heap.mem respPtr = some blkA :=
  createVirtioBlkRef_copy_semantics
    { heap := { mem := [(0, blkA)], next := 1 }, blkCtrls := [] }
    0 blkA (by decide) (by decide) (by decide)

/-- Claim C3 counterexample: GetVirtioBlk on an identifier absent from the
Registry fails with code InvalidArgument ("Could not find Controller: blk-1"),
and InvalidArgument is not NotFound, contradicting that Get fails NotFound
whenever the identifier is absent. -/
theorem getVirtioBlk_absent_is_invalidArgument :
    (getVirtioBlk { blkCtrls := [], pagination := [] } "blk-1" (RpcOutcome.ok [])).1 =
      Except.error (OpError.grpcStatus GrpcCode.invalidArgument
        "Could not find Controller: blk-1") ∧
    GrpcCode.invalidArgument ≠ GrpcCode.notFound :=
  ⟨rfl, by decide⟩

/-- Claim C3 amended: Get(id) fails InvalidArgument (message "Could not find
Controller: <id>") whenever the identifier is absent from the Registry, with no
engine call; when the identifier is present, the engine is queried for the
fresh authoritative list and Get fails InvalidArgument-class if the number of
matching records is anything other than exactly one. -/
theorem getVirtioBlk_error_contract (s : ServerState) (name : String)
    (engine : RpcOutcome (List VhostGetControllersResult)) :
    (mapLookup s.blkCtrls name = none →
      getVirtioBlk s name engine =
        (Except.error (OpError.grpcStatus GrpcCode.invalidArgument
          ("Could not find Controller: " ++ name)), [])) ∧
    (∀ c : VirtioBlk, ∀ rs : List VhostGetControllersResult,
      mapLookup s.blkCtrls name = some c →
      engine = RpcOutcome.ok rs →
      (getVirtioBlk s name engine).2 = ["vhost_get_controllers"] ∧
      (rs.length ≠ 1 →
        (getVirtioBlk s name engine).1 =
          Except.error (OpError.grpcStatus GrpcCode.invalidArgument
            ("expecting exactly 1 result, got " ++ toString rs.length)))) := by
  constructor
  · intro habs
    simp [getVirtioBlk, habs]
  · intro c rs hc heq
    subst heq
    by_cases hlen : rs.length = 1 <;> simp [getVirtioBlk, hc, hlen]

/-- Claim C3 amended witness: an absent id fails InvalidArgument naming it; a
present id with an empty engine reply (zero matches) fails InvalidArgument
naming the count. -/
theorem getVirtioBlk_error_contract_witness :
    getVirtioBlk { blkCtrls := [], pagination := [] } "blk-g" (RpcOutcome.ok []) =
      (Except.error (OpError.grpcStatus GrpcCode.invalidArgument
        "Could not find Controller: blk-g"), []) ∧
    (getVirtioBlk { blkCtrls := [("blk-a", blkA)], pagination := [] } "blk-a"
        (RpcOutcome.ok [])).1 =
      Except.error (OpError.grpcStatus GrpcCode.invalidArgument
        "expecting exactly 1 result, got 0") :=
  ⟨(getVirtioBlk_error_contract { blkCtrls := [], pagination := [] } "blk-g"
      (RpcOutcome.ok [])).1 (by decide),
   ((getVirtioBlk_error_contract { blkCtrls := [("blk-a", blkA)], pagination := [] }
      "blk-a" (RpcOutcome.ok [])).2 blkA [] (by decide) rfl).2 (by decide)⟩

/-- Claim C4: for a Delete of a present resource (the stored controller keyed
by its own Id.Value), a decoded engine reply whose boolean result is false
still removes the Registry entry and returns success to the caller, while a
Gateway (rpc.Call) failure propagates as an error with the Registry entry left
in place and the whole state unchanged. -/
theorem deleteVirtioBlk_engine_false_contract (s : ServerState) (name : String)
    (allowMissing : Bool) (c : VirtioBlk)
    (hc : mapLookup s.blkCtrls name = some c) (hid : c.id.value = name) :
    (deleteVirtioBlk s name allowMissing (RpcOutcome.ok false)).1.blkCtrls =
      mapRemove s.blkCtrls name ∧
    mapLookup (deleteVirtioBlk s name allowMissing (RpcOutcome.ok false)).1.blkCtrls
      name = none ∧
    (deleteVirtioBlk s name allowMissing (RpcOutcome.ok false)).2.1 = Except.ok () ∧
    (deleteVirtioBlk s name allowMissing RpcOutcome.err).1 = s ∧
    (deleteVirtioBlk s name allowMissing RpcOutcome.err).2.1 =
      Except.error OpError.rpcError := by
  refine ⟨?_, ?_, ?_, ?_, ?_⟩ <;>
    simp [deleteVirtioBlk, hc, hid, mapLookup_remove_self]

/-- Claim C4 witness: a registry holding blk-a, engine reply false removes the
entry and succeeds; an rpc error leaves the state as it was and propagates. -/
theorem deleteVirtioBlk_engine_false_contract_witness :
    (deleteVirtioBlk { blkCtrls := [("blk-a", blkA)], pagination := [] } "blk-a"
        false (RpcOutcome.ok false)).2.1 = Except.ok () ∧
    (deleteVirtioBlk { blkCtrls := [("blk-a", blkA)], pagination := [] } "blk-a"
        false RpcOutcome.err).1 =
      { blkCtrls := [("blk-a", blkA)], pagination := [] } :=
  ⟨(deleteVirtioBlk_engine_false_contract
      { blkCtrls := [("blk-a", blkA)], pagination := [] } "blk-a" false blkA
      (by decide) (by decide)).2.2.1,
   (deleteVirtioBlk_engine_false_contract
      { blkCtrls := [("blk-a", blkA)], pagination := [] } "blk-a" false blkA
      (by decide) (by decide)).2.2.2.1⟩

/-- Claim C7: a Delete whose identifier is absent from the Registry succeeds as
a no-op when allowMissing is true (empty acknowledgment, state unchanged, no
engine call) and fails NotFound naming the identifier when allowMissing is
false, again with no engine call and the state unchanged. -/
theorem deleteVirtioBlk_absent_contract (s : ServerState) (name : String)
    (engine : RpcOutcome Bool)
    (habs : mapLookup s.blkCtrls name = none) :
    deleteVirtioBlk s name true engine = (s, Except.ok (), []) ∧
    deleteVirtioBlk s name false engine =
      (s, Except.error (OpError.grpcStatus GrpcCode.notFound
        ("unable to find key " ++ name)), []) := by
  constructor <;> simp [deleteVirtioBlk, habs]

/-- Claim C7 witness: deleting unknown-id from an empty registry. -/
theorem deleteVirtioBlk_absent_contract_witness :
    deleteVirtioBlk { blkCtrls := [], pagination := [] } "unknown-id" true
        (RpcOutcome.ok true) =
      ({ blkCtrls := [], pagination := [] }, Except.ok (), []) ∧
    deleteVirtioBlk { blkCtrls := [], pagination := [] } "unknown-id" false
        (RpcOutcome.ok true) =
      ({ blkCtrls := [], pagination := [] },
       Except.error (OpError.grpcStatus GrpcCode.notFound
         "unable to find key unknown-id"), []) :=
  deleteVirtioBlk_absent_contract { blkCtrls := [], pagination := [] }
    "unknown-id" (RpcOutcome.ok true) (by decide)

/-- Claim C5: ListVirtioBlks validates pagination parameters before any engine
call. A negative page size fails InvalidArgument with message "negative
PageSize is not allowed" and the engine-call list is empty; a nonempty page
token absent from the cursor map fails NotFound naming the token, again with no
engine call; in both cases the state is unchanged. -/
theorem listVirtioBlks_validates_first (s : ServerState) (pageSize : Int)
    (pageToken : String) (engine : RpcOutcome (List VhostGetControllersResult))
    (newToken : String) :
    (pageSize < 0 →
      listVirtioBlks s pageSize pageToken engine newToken =
        (s, Except.error (OpError.grpcStatus GrpcCode.invalidArgument
          "negative PageSize is not allowed"), [])) ∧
    (0 ≤ pageSize → pageToken ≠ "" → mapLookup s.pagination pageToken = none →
      listVirtioBlks s pageSize pageToken engine newToken =
        (s, Except.error (OpError.grpcStatus GrpcCode.notFound
          ("unable to find pagination token " ++ pageToken)), [])) := by
  constructor
  · intro hneg
    simp [listVirtioBlks, extractPagination, hneg]
  · intro hpos htok hmap
    have hnlt : ¬ pageSize < 0 := not_lt.mpr hpos
    simp [listVirtioBlks, extractPagination, hnlt, htok, hmap]

/-- Claim C5 witness: page size -10 fails InvalidArgument with no engine call;
token unknown-pagination-token with an empty cursor map fails NotFound naming
it, also with no engine call. -/
theorem listVirtioBlks_validates_first_witness :
    listVirtioBlks { blkCtrls := [], pagination := [] } (-10) "" (RpcOutcome.ok [])
        "tok-1" =
      ({ blkCtrls := [], pagination := [] },
       Except.error (OpError.grpcStatus GrpcCode.invalidArgument
         "negative PageSize is not allowed"), []) ∧
    listVirtioBlks { blkCtrls := [], pagination := [] } 0 "unknown-pagination-token"
        (RpcOutcome.ok []) "tok-1" =
      ({ blkCtrls := [], pagination := [] },
       Except.error (OpError.grpcStatus GrpcCode.notFound
         "unable to find pagination token unknown-pagination-token"), []) :=
  ⟨(listVirtioBlks_validates_first { blkCtrls := [], pagination := [] } (-10) ""
      (RpcOutcome.ok []) "tok-1").1 (by decide),
   (listVirtioBlks_validates_first { blkCtrls := [], pagination := [] } 0
      "unknown-pagination-token" (RpcOutcome.ok []) "tok-1").2 (by decide)
      (by decide) (by decide)⟩

/-- Claim C6: with pagination resolved to (size, offset) and an engine list rs,
ListVirtioBlks returns the shaped slice [offset : offset+size] of rs; when
elements remain beyond the slice the freshly generated token is returned as
NextPageToken and mapped to offset+size in the cursor map, and otherwise
(including a page that exactly exhausts the remaining elements) the returned
token is empty and the cursor map is unchanged. -/
theorem listVirtioBlks_slicing_token (s : ServerState) (pageSize : Int)
    (pageToken : String) (rs : List VhostGetControllersResult)
    (newToken : String) (size offset : Nat)
    (hex : extractPagination pageSize pageToken s.pagination =
      Except.ok (size, offset)) :
    (listVirtioBlks s pageSize pageToken (RpcOutcome.ok rs) newToken).2.1 =
      Except.ok (((rs.drop offset).take size).map blkFromCtrlr,
        if offset + size < rs.length then newToken else "") ∧
    (offset + size < rs.length →
      (listVirtioBlks s pageSize pageToken (RpcOutcome.ok rs) newToken).1.pagination =
        mapInsert s.pagination newToken (offset + size)) ∧
    (¬ offset + size < rs.length →
      (listVirtioBlks s pageSize pageToken (RpcOutcome.ok rs) newToken).1.pagination =
        s.pagination) := by
  by_cases hmore : offset + size < rs.length <;>
    simp [listVirtioBlks, hex, limitPagination, hmore]

/-- Claim C6 witness: three engine records, offset 0 and size 2 (a stored token
maps to 0, page size 2): the first two records are returned shaped, the fresh
token is returned and mapped to 2; with size 3 the page exactly exhausts the
list, the token is empty and the map is untouched. -/
theorem listVirtioBlks_slicing_token_witness :
    (listVirtioBlks { blkCtrls := [], pagination := [] } 2 ""
        (RpcOutcome.ok [{ ctrlr := "c1" }, { ctrlr := "c2" }, { ctrlr := "c3" }])
        "fresh-token").2.1 =
      Except.ok ([blkFromCtrlr { ctrlr := "c1" }, blkFromCtrlr { ctrlr := "c2" }],
        "fresh-token") ∧
    (listVirtioBlks { blkCtrls := [], pagination := [] } 2 ""
        (RpcOutcome.ok [{ ctrlr := "c1" }, { ctrlr := "c2" }, { ctrlr := "c3" }])
        "fresh-token").1.pagination = [("fresh-token", 2)] ∧
    (listVirtioBlks { blkCtrls := [], pagination := [] } 3 ""
        (RpcOutcome.ok [{ ctrlr := "c1" }, { ctrlr := "c2" }, { ctrlr := "c3" }])
        "fresh-token").2.1 =
      Except.ok ([blkFromCtrlr { ctrlr := "c1" }, blkFromCtrlr { ctrlr := "c2" },
        blkFromCtrlr { ctrlr := "c3" }], "") ∧
    (listVirtioBlks { blkCtrls := [], pagination := [] } 3 ""
        (RpcOutcome.ok [{ ctrlr := "c1" }, { ctrlr := "c2" }, { ctrlr := "c3" }])
        "fresh-token").1.pagination = [] := by
  have h2 := listVirtioBlks_slicing_token { blkCtrls := [], pagination := [] } 2 ""
    [{ ctrlr := "c1" }, { ctrlr := "c2" }, { ctrlr := "c3" }] "fresh-token" 2 0
    rfl
  have h3 := listVirtioBlks_slicing_token { blkCtrls := [], pagination := [] } 3 ""
    [{ ctrlr := "c1" }, { ctrlr := "c2" }, { ctrlr := "c3" }] "fresh-token" 3 0
    rfl
  exact ⟨h2.1, h2.2.1 (by decide), h3.1, h3.2.2 (by decide)⟩

/-- Claim C9: when the engine RPC fails, Create on an absent id adds no
registry entry and surfaces the wrapped failure, and Delete on a present id
removes no entry and surfaces the rpc error; in both cases the whole server
state is exactly as before the call. -/
theorem rpcError_registry_unchanged (s : ServerState) (inBlk : VirtioBlk)
    (name : String) (allowMissing : Bool) :
    (mapLookup s.blkCtrls inBlk.id.value = none →
      (createVirtioBlk s inBlk RpcOutcome.err).1 = s ∧
      (createVirtioBlk s inBlk RpcOutcome.err).2.1 =
        Except.error OpError.failedSpdkCall) ∧
    (∀ c : VirtioBlk, mapLookup s.blkCtrls name = some c →
      (deleteVirtioBlk s name allowMissing RpcOutcome.err).1 = s ∧
      (deleteVirtioBlk s name allowMissing RpcOutcome.err).2.1 =
        Except.error OpError.rpcError) := by
  constructor
  · intro habs
    simp [createVirtioBlk, habs]
  · intro c hc
    simp [deleteVirtioBlk, hc]

/-- Claim C9 witness: an rpc failure during Create of blk-a on an empty
registry and during Delete of a stored blk-a both leave the state unchanged and
return the corresponding error. -/
theorem rpcError_registry_unchanged_witness :
    ((createVirtioBlk { blkCtrls := [], pagination := [] } blkA RpcOutcome.err).1 =
        { blkCtrls := [], pagination := [] } ∧
      (createVirtioBlk { blkCtrls := [], pagination := [] } blkA
        RpcOutcome.err).2.1 = Except.error OpError.failedSpdkCall) ∧
    ((deleteVirtioBlk { blkCtrls := [("blk-a", blkA)], pagination := [] } "blk-a"
        false RpcOutcome.err).1 =
        { blkCtrls := [("blk-a", blkA)], pagination := [] } ∧
      (deleteVirtioBlk { blkCtrls := [("blk-a", blkA)], pagination := [] } "blk-a"
        false RpcOutcome.err).2.1 = Except.error OpError.rpcError) :=
  ⟨(rpcError_registry_unchanged { blkCtrls := [], pagination := [] } blkA "blk-a"
      false).1 (by decide),
   (rpcError_registry_unchanged { blkCtrls := [("blk-a", blkA)], pagination := [] }
      blkA "blk-a" false).2 blkA (by decide)⟩

/-- Claim C8: the listener address resolver maps "10.10.10.10:12345" to an IPv4
TCP descriptor with host 10.10.10.10 and port 12345, maps the bracketed IPv6
host:port string to an IPv6 TCP descriptor, and terminates the operation
(modelled as none) on the empty string, on a host with no port, and on the
non-IP host "wrong:12345", returning no descriptor for any of them. -/
theorem newTCPSubsystemListener_resolution :
    newTCPSubsystemListener "10.10.10.10:12345" =
      some { listenAddr := IpAddr.v4 [10, 10, 10, 10], listenPort := "12345",
             protocol := NvmeTCPProtocol.ipv4 } ∧
    newTCPSubsystemListener "[2002:db0:8833::8a8a:330:7337]:54321" =
      some { listenAddr := IpAddr.v6 [0x2002, 0xdb0, 0x8833, 0, 0, 0x8a8a,
                                      0x330, 0x7337],
             listenPort := "54321", protocol := NvmeTCPProtocol.ipv6 } ∧
    newTCPSubsystemListener "" = none ∧
    newTCPSubsystemListener "10.10.10.10" = none ∧
    newTCPSubsystemListener "wrong:12345" = none := by
  refine ⟨?_, ?_, ?_, ?_, ?_⟩ <;> decide

/-- Claim C10: every Virtio-blk object returned by List or Get carries the
fixed placeholder fields PcieId.PhysicalFunction = 1 and VolumeId.Value = "TBD"
whatever the registry holds, and its Id is the Ctrlr name of an engine record;
Get on a present id with a single engine record returns exactly that record
shaped this way. -/
theorem virtioBlk_placeholder_shape (s : ServerState) (pageSize : Int)
    (pageToken : String) (rs : List VhostGetControllersResult)
    (newToken : String) (name : String) (c : VirtioBlk)
    (r : VhostGetControllersResult) :
    (∀ blks tok,
      (listVirtioBlks s pageSize pageToken (RpcOutcome.ok rs) newToken).2.1 =
        Except.ok (blks, tok) →
      ∀ b ∈ blks, b.pcieId.physicalFunction = 1 ∧ b.pcieId.virtualFunction = 0 ∧
        b.volumeId.value = "TBD" ∧ ∃ rec ∈ rs, b.id.value = rec.ctrlr) ∧
    (mapLookup s.blkCtrls name = some c →
      (getVirtioBlk s name (RpcOutcome.ok [r])).1 =
        Except.ok { id := { value := r.ctrlr },
                    pcieId := { physicalFunction := 1, virtualFunction := 0 },
                    volumeId := { value := "TBD" } }) := by
  constructor
  · intro blks tok hout b hb
    rcases hex : extractPagination pageSize pageToken s.pagination with perr | ⟨size, offset⟩
    · simp [listVirtioBlks, hex] at hout
    · simp [listVirtioBlks, hex] at hout
      obtain ⟨hblks, _⟩ := hout
      subst hblks
      obtain ⟨rec, hrec, hshape⟩ := List.mem_map.mp hb
      refine ⟨?_, ?_, ?_, rec, ?_, ?_⟩ <;>
        simp [← hshape, blkFromCtrlr, limitPagination] at *
      exact List.mem_of_mem_drop (List.mem_of_mem_take hrec)
  · intro hc
    simp [getVirtioBlk, hc, blkFromCtrlr]

/-- Claim C10 witness: a List over two engine records has every returned object
carrying PhysicalFunction 1 and VolumeId "TBD" with its Id among the records,
and Get of a stored blk-a against one engine record returns that record shaped
with the placeholders. -/
theorem virtioBlk_placeholder_shape_witness :
    (∀ blks tok,
      (listVirtioBlks { blkCtrls := [], pagination := [] } 0 ""
          (RpcOutcome.ok [{ ctrlr := "c1" }, { ctrlr := "c2" }]) "t").2.1 =
        Except.ok (blks, tok) →
      ∀ b ∈ blks, b.pcieId.physicalFunction = 1 ∧ b.pcieId.virtualFunction = 0 ∧
        b.volumeId.value = "TBD" ∧
        ∃ rec ∈ ([{ ctrlr := "c1" }, { ctrlr := "c2" }] :
            List VhostGetControllersResult), b.id.value = rec.ctrlr) ∧
    (getVirtioBlk { blkCtrls := [("blk-a", blkA)], pagination := [] } "blk-a"
        (RpcOutcome.ok [{ ctrlr := "vhost-blk-a" }])).1 =
      Except.ok { id := { value := "vhost-blk-a" },
                  pcieId := { physicalFunction := 1, virtualFunction := 0 },
                  volumeId := { value := "TBD" } } :=
  ⟨(virtioBlk_placeholder_shape { blkCtrls := [], pagination := [] } 0 ""
      [{ ctrlr := "c1" }, { ctrlr := "c2" }] "t" "blk-a" blkA
      { ctrlr := "vhost-blk-a" }).1,
   (virtioBlk_placeholder_shape { blkCtrls := [("blk-a", blkA)], pagination := [] }
      0 "" [{ ctrlr := "c1" }, { ctrlr := "c2" }] "t" "blk-a" blkA
      { ctrlr := "vhost-blk-a" }).2 (by decide)⟩

end OpiSpdkBridge
